import Mathlib

/-!
Verification development for the Galveston Reservation System.

This file gives a shallow embedding of the core logic of the repository
(token-secret resolution, Google-Calendar availability checking, admin
approve/reject handlers, calendar change detection, booking-form
validation, reconciliation comparison, blocked-date range collapsing,
blocked-range sync, and the public booking-status endpoint) and proves
or refutes the specification claims about it.

Conventions used throughout:
 - wall-clock datetimes are integers (minutes on a linear time axis);
 - calendar days are a `Date` record (year, month, day) with a
   day-number conversion `Date.toDays` mirroring Python datetime
   subtraction at day granularity;
 - external effects (database rows, Google API results, created events)
   are passed in as explicit values or functions, and outgoing remote
   writes are returned as data, so every function is pure and
   executable.
-/

/-- A calendar date (year, month, day), the date-only value produced by
Python `datetime.date()` or by parsing a `%Y-%m-%d` string. -/
structure Date where
  year : Nat
  month : Nat
  day : Nat
deriving DecidableEq, Repr

/-- Gregorian leap-year test, as in Python `calendar.isleap`. -/
def Date.isLeapYear (y : Nat) : Bool :=
  (y % 4 == 0 && y % 100 != 0) || y % 400 == 0

/-- Days contributed by the months before month `m` of a year
(`leap` tells whether that year is a leap year). -/
def Date.monthCumDays (leap : Bool) (m : Nat) : Nat :=
  [0, 31, 59, 90, 120, 151, 181, 212, 243, 273, 304, 334].getD (m - 1) 0 +
    (if leap && m > 2 then 1 else 0)

/-- Day number of a date (days since 0001-01-01).  Differences of
`toDays` values agree with Python `(d2 - d1).days` for date-only
datetimes, which is the only use the embedded code makes of dates
beyond equality. -/
def Date.toDays (d : Date) : Nat :=
  let y := d.year - 1
  365 * y + y / 4 - y / 100 + y / 400 +
    Date.monthCumDays (Date.isLeapYear d.year) d.month + (d.day - 1)

/-! ## Token Service secret resolution (app/services/email.py, app/config.py)

`Config.APPROVAL_TOKEN_SECRET = os.getenv(APPROVAL_TOKEN_SECRET, Nfjp...)`
and `EmailService._get_serializer` computes
`secret_key = config.APPROVAL_TOKEN_SECRET or current_app.config[SECRET_KEY]`
and builds the serializer with it unconditionally. -/

/-- The configured approval-token secret: the `APPROVAL_TOKEN_SECRET`
environment value when set, otherwise the hard-coded default string
from `app/config.py` line 77. -/
def approvalTokenSecretConfig (env : Option String) : String :=
  env.getD "NfjpI79JUbvtVe6VgqQOwig6RrE0XYmUdzJ7K0DU9wo"

/-- The secret key `EmailService._get_serializer` hands to
`URLSafeTimedSerializer`: Python `a or b` on strings yields `b` exactly
when `a` is empty, so an empty approval-token secret silently becomes
the Flask `SECRET_KEY`.  No length validation and no error path exists;
the function is total. -/
def getSerializerSecret (approvalTokenSecret : String) (flaskSecretKey : String) : String :=
  if approvalTokenSecret = "" then flaskSecretKey else approvalTokenSecret

/-! ## Google Calendar service (app/services/google_calendar.py) -/

/-- A calendar event as consumed by `check_availability` after its
start and end strings have been parsed: an id and a half-open time
interval on the linear time axis. -/
structure CalEvent where
  id : String
  startT : Int
  endT : Int
deriving DecidableEq, Repr

/-- Outcome of the remote `events().list(...).execute()` call inside
`get_events`: either the item list, or an `HttpError` from the
transport/auth layer. -/
inductive GatewayResult
  | ok (events : List CalEvent)
  | httpError (msg : String)
deriving DecidableEq

/-- `GoogleCalendarService.get_events`: returns the fetched items, and
catches `HttpError` by returning the empty list (lines 93-95 of the
source). -/
def get_events (resp : GatewayResult) : List CalEvent :=
  match resp with
  | .ok events => events
  | .httpError _ => []

/-- A requested date-time range with exclusive end. -/
structure DRange where
  startT : Int
  endT : Int
deriving DecidableEq, Repr

/-- The interval-overlap test of `check_availability` line 260:
`start_datetime < event_end_dt and end_datetime > event_start_dt`,
with `a` the requested range and `b` the event range. -/
def overlaps (a b : DRange) : Bool :=
  decide (a.startT < b.endT ∧ a.endT > b.startT)

/-- Result dictionary of `check_availability`. -/
structure AvailabilityResult where
  available : Bool
  conflicts : List CalEvent
  message : String
deriving DecidableEq, Repr

/-- `GoogleCalendarService.check_availability`: fetches events for the
requested window via `get_events` (which swallows `HttpError` into an
empty list), keeps those overlapping the request, and reports
`available` iff no conflicts remain. -/
def check_availability (req : DRange) (resp : GatewayResult) : AvailabilityResult :=
  let events := get_events resp
  let conflicts := events.filter (fun ev => overlaps req ⟨ev.startT, ev.endT⟩)
  { available := conflicts.isEmpty
    conflicts := conflicts
    message := if conflicts.isEmpty then "Available" else "conflicting events found" }

/-! ## Admin approve/reject handlers (app/routes/admin.py, app/routes/api.py) -/

/-- Persisted state of a `BookingRequest` row as touched by the admin
handlers. -/
structure BookingState where
  status : String
  googleEventId : Option String
  approvedAt : Option Nat
  rejectedAt : Option Nat
  rejectionReason : Option String
deriving DecidableEq, Repr

/-- Payload recovered from a verified approval/rejection token. -/
structure TokenData where
  bookingId : Nat
  action : String
deriving DecidableEq, Repr

/-- Response category of an admin handler (flash message / JSON error,
reduced to its kind). -/
inductive AdminResp
  | invalidLink
  | alreadyProcessed (status : String)
  | conflictPage
  | approvedOk
  | approvedDegraded
  | rejectFormPage
  | rejectedOk
  | notFound
deriving DecidableEq, Repr

/-- `admin.approve_booking` (admin.py lines 28-116).  Inputs: the token
verification result, the looked-up booking row, the availability
re-check result, and the outcome of the calendar-event creation call
(`some eventId` on success, `none` on failure).  Output: the new
booking row, the number of `create_event` calls made, and the response
kind.  The guard at line 42 returns before any calendar call when the
booking is not pending. -/
def approve_booking (tokenData : Option TokenData) (booking : BookingState)
    (avail : AvailabilityResult) (createResult : Option String) (now : Nat) :
    BookingState × Nat × AdminResp :=
  match tokenData with
  | none => (booking, 0, .invalidLink)
  | some td =>
    if td.action ≠ "approve" then (booking, 0, .invalidLink)
    else if booking.status ≠ "pending" then (booking, 0, .alreadyProcessed booking.status)
    else if ¬ avail.available then (booking, 0, .conflictPage)
    else
      match createResult with
      | some eventId =>
        ({ booking with status := "confirmed", approvedAt := some now,
                        googleEventId := some eventId }, 1, .approvedOk)
      | none =>
        ({ booking with status := "approved", approvedAt := some now }, 1, .approvedDegraded)

/-- `admin.reject_booking`, the GET handler (admin.py lines 118-140):
verifies the token, reports already-processed bookings, and otherwise
only renders the rejection form.  It never mutates the booking. -/
def reject_booking_get (tokenData : Option TokenData) (booking : BookingState) :
    BookingState × AdminResp :=
  match tokenData with
  | none => (booking, .invalidLink)
  | some td =>
    if td.action ≠ "reject" then (booking, .invalidLink)
    else if booking.status ≠ "pending" then (booking, .alreadyProcessed booking.status)
    else (booking, .rejectFormPage)

/-- `admin.process_rejection`, the POST rejection-with-reason handler
(admin.py lines 142-174).  After token verification it sets
`status = rejected`, the rejection timestamp and the reason and
commits — there is no pending-status guard in this handler. -/
def process_rejection (tokenData : Option TokenData) (booking : BookingState)
    (reason : String) (now : Nat) : BookingState × AdminResp :=
  match tokenData with
  | none => (booking, .invalidLink)
  | some td =>
    if td.action ≠ "reject" then (booking, .invalidLink)
    else
      ({ booking with status := "rejected", rejectedAt := some now,
                      rejectionReason := some reason }, .rejectedOk)

/-- `api.reject_booking` (api.py lines 319-358): verifies the token,
returns 404 for a missing booking, reports `Booking already processed`
for a non-pending booking, and otherwise sets the status to rejected. -/
def api_reject_booking (tokenData : Option TokenData) (booking : Option BookingState) :
    Option BookingState × AdminResp :=
  match tokenData with
  | none => (booking, .invalidLink)
  | some td =>
    if td.action ≠ "reject" then (booking, .invalidLink)
    else
      match booking with
      | none => (none, .notFound)
      | some b =>
        if b.status ≠ "pending" then (some b, .alreadyProcessed b.status)
        else (some { b with status := "rejected" }, .rejectedOk)

/-! ## Calendar change detection (app/services/calendar_change_detection.py) -/

/-- A `BookingRequest` row as read by the change detector.  The source
compares `booking.start_date.date()` with the parsed event dates, so
the stay bounds are carried here as date-only values. -/
structure CDBooking where
  id : Nat
  status : String
  googleEventId : Option String
  startDate : Date
  endDate : Date
  guestEmail : String
  guestName : String
deriving DecidableEq, Repr

/-- A current Google event as seen by the detector: `_parse_event_date`
applied to the start and end fields (`none` when parsing failed), plus
the summary and description used by `_extract_event_data`. -/
structure CDEvent where
  startDate : Option Date
  endDate : Option Date
  summary : String
  description : String
deriving DecidableEq, Repr

/-- A detected `CalendarEventChange`.  `newData` carries the extracted
start/end of the current event for a modification and is `none` for a
deletion.  (The formatted summary string of `old_data` is omitted; the
date range it renders is carried by `oldStart`/`oldEnd`.) -/
structure CDChange where
  bookingId : Nat
  changeType : String
  oldStart : Date
  oldEnd : Date
  newData : Option (Option Date × Option Date)
  guestEmail : String
  guestName : String
deriving DecidableEq, Repr

/-- `_event_was_modified`: parses the current event dates; if either
fails to parse it logs and returns `False`, otherwise compares the
date-only start/end with the stored booking dates. -/
def event_was_modified (b : CDBooking) (ev : CDEvent) : Bool :=
  match ev.startDate, ev.endDate with
  | some s, some e => decide (b.startDate ≠ s ∨ b.endDate ≠ e)
  | _, _ => false

/-- The `deleted` change record built at lines 109-119 of the source. -/
def deletedChange (b : CDBooking) : CDChange :=
  { bookingId := b.id, changeType := "deleted", oldStart := b.startDate,
    oldEnd := b.endDate, newData := none,
    guestEmail := b.guestEmail, guestName := b.guestName }

/-- The `modified` change record built at lines 122-134 of the source,
with `new_data` from `_extract_event_data`. -/
def modifiedChange (b : CDBooking) (ev : CDEvent) : CDChange :=
  { bookingId := b.id, changeType := "modified", oldStart := b.startDate,
    oldEnd := b.endDate, newData := some (ev.startDate, ev.endDate),
    guestEmail := b.guestEmail, guestName := b.guestName }

/-- `_check_booking_for_changes`: looks the event id of the booking up in
the current-events dictionary; absent means a `deleted` change, present
and modified means a `modified` change, otherwise no change. -/
def check_booking_for_changes (b : CDBooking) (eventsById : String → Option CDEvent) :
    Option CDChange :=
  let current := match b.googleEventId with
    | some eid => eventsById eid
    | none => none
  match current with
  | none => some (deletedChange b)
  | some ev => if event_was_modified b ev then some (modifiedChange b ev) else none

/-- `_get_bookings_with_calendar_events` (lines 78-87): the bookings
with a non-null `google_event_id` AND the status equal to `approved`. -/
def get_bookings_with_calendar_events (db : List CDBooking) : List CDBooking :=
  db.filter (fun b => b.googleEventId.isSome && b.status == "approved")

/-- `detect_booking_changes`: checks each booking returned by
`_get_bookings_with_calendar_events` (re-guarding on
`if booking.google_event_id:`) against the current-events lookup and
collects the detected changes. -/
def detect_booking_changes (db : List CDBooking) (eventsById : String → Option CDEvent) :
    List CDChange :=
  (get_bookings_with_calendar_events db).filterMap (fun b =>
    match b.googleEventId with
    | some _ => check_booking_for_changes b eventsById
    | none => none)

/-! ## Booking submission and status routes (app/routes/booking.py, app/config.py,
app/models/__init__.py) -/

/-- Configured minimum stay, `MIN_STAY_NIGHTS = int(os.getenv(MIN_STAY_NIGHTS, 2))`
with the environment variable unset. -/
def MIN_STAY_NIGHTS_default : Nat := 2

/-- Configured maximum stay, `MAX_STAY_NIGHTS = int(os.getenv(MAX_STAY_NIGHTS, 30))`
with the environment variable unset. -/
def MAX_STAY_NIGHTS_default : Nat := 30

/-- Minutes per day, used to turn datetime differences into day counts
as Python `timedelta.days` does for the midnight datetimes handled
here. -/
def minutesPerDay : Int := 1440

/-- State of one submitted date field: absent or empty
(`request.form.get` gave a falsy value), present but unparseable by
`datetime.fromisoformat`, or parsed to a datetime. -/
inductive DateField
  | missing
  | malformed
  | parsed (t : Int)
deriving DecidableEq, Repr

/-- The validation-error accumulation of `booking_request` (booking.py
lines 36-62): required-field messages, a single `Invalid date format`
message when either date fails to parse (one `try` wraps both parses,
and `fromisoformat` on a missing value raises as well), and — only when
no earlier error occurred — the date-order and not-in-the-past checks.
No stay-length check appears anywhere in the handler. -/
def validate_booking_form (guestName guestEmail : String)
    (startField endField : DateField) (now : Int) : List String :=
  let errors :=
    (if guestName = "" then ["Guest name is required"] else []) ++
    (if guestEmail = "" then ["Email address is required"] else []) ++
    (if startField = .missing then ["Check-in date is required"] else []) ++
    (if endField = .missing then ["Check-out date is required"] else [])
  match startField, endField with
  | .parsed s, .parsed e =>
    if errors = [] then
      (if s ≥ e then ["Check-out date must be after check-in date"] else []) ++
      (if s < now then ["Check-in date must be in the future"] else [])
    else errors
  | _, _ => errors ++ ["Invalid date format"]

/-- Outcome of the booking-request POST handler, as far as persistence
is concerned: a 400 with validation errors (nothing persisted), a 409
availability conflict (nothing persisted), or a pending booking row
committed to the database. -/
inductive SubmitOutcome
  | validationFailed (errors : List String)
  | conflictRejected
  | persistedPending
deriving DecidableEq, Repr

/-- `booking.booking_request`, POST branch: validate, return the
errors if any, otherwise check availability and reject on conflict,
otherwise persist the booking with a pending status.  `avail` is the
`check_availability` result for the parsed dates. -/
def booking_request (guestName guestEmail : String)
    (startField endField : DateField) (now : Int) (avail : AvailabilityResult) :
    SubmitOutcome :=
  let errors := validate_booking_form guestName guestEmail startField endField now
  if errors ≠ [] then .validationFailed errors
  else if ¬ avail.available then .conflictRejected
  else .persistedPending

/-- A `BookingRequest` row as read by the status endpoint. -/
structure BookingRecord where
  id : Nat
  guestName : String
  guestEmail : String
  guestPhone : Option String
  startDate : Int
  endDate : Int
  numGuests : Nat
  specialRequests : Option String
  status : String
  createdAt : Int
  updatedAt : Int
deriving DecidableEq, Repr

/-- The dictionary produced by `BookingRequest.to_dict` (models lines
46-61), field for field. -/
structure BookingDict where
  id : Nat
  guest_name : String
  guest_email : String
  guest_phone : Option String
  start_date : Int
  end_date : Int
  num_guests : Nat
  special_requests : Option String
  status : String
  duration_days : Int
  created_at : Int
  updated_at : Int
deriving DecidableEq, Repr

/-- `BookingRequest.to_dict`, including the `duration_days` property
`(end_date - start_date).days`. -/
def to_dict (b : BookingRecord) : BookingDict :=
  { id := b.id, guest_name := b.guestName, guest_email := b.guestEmail,
    guest_phone := b.guestPhone, start_date := b.startDate, end_date := b.endDate,
    num_guests := b.numGuests, special_requests := b.specialRequests,
    status := b.status, duration_days := (b.endDate - b.startDate) / minutesPerDay,
    created_at := b.createdAt, updated_at := b.updatedAt }

/-- `booking.booking_status` (booking.py lines 115-119): looks the row
up by its integer id (`get_or_404`; `none` models the 404 page) and
returns the full `to_dict` serialization.  The handler takes nothing
but the id — no session, token or credential parameter exists. -/
def booking_status (db : Nat → Option BookingRecord) (bookingId : Nat) :
    Option BookingDict :=
  match db bookingId with
  | none => none
  | some b => some (to_dict b)

/-! ## Reconciliation comparison (app/services/rental_scraper.py) -/

/-- The `start` field of a Google event as inspected by
`compare_with_google_calendar`: an all-day `date` value, a `dateTime`
value (carried here already reduced to its date part, as the source
does with `strftime` to year-month-day form), or neither key present. -/
inductive EventStartField
  | dateOnly (d : Date)
  | dateTime (d : Date)
deriving DecidableEq, Repr

/-- A raw Google event as consumed by the comparison; only the start
field is ever read. -/
structure RawGoogleEvent where
  start : Option EventStartField
deriving DecidableEq, Repr

/-- The `google_blocked` set built at lines 213-220 of the source: one
date per event, taken from its start field, skipping events without
one. -/
def google_blocked_dates (events : List RawGoogleEvent) : Finset Date :=
  events.foldl (fun acc ev =>
    match ev.start with
    | some (.dateOnly d) => insert d acc
    | some (.dateTime d) => insert d acc
    | none => acc) ∅

/-- Result of `compare_with_google_calendar`. -/
structure ComparisonResult where
  totalRentalBlocked : Nat
  totalGoogleBlocked : Nat
  rentalOnly : Finset Date
  googleOnly : Finset Date
  syncNeeded : Bool
deriving DecidableEq

/-- `GalvestonRentalScraper.compare_with_google_calendar` (lines
199-235): set-difference the scraped blocked dates against the reduced
Google set in both directions and report `sync_needed` as
`len(rental_only) > 0 or len(google_only) > 0`. -/
def compare_with_google_calendar (blockedDates : Finset Date)
    (googleEvents : List RawGoogleEvent) : ComparisonResult :=
  let googleBlocked := google_blocked_dates googleEvents
  let rentalOnly := blockedDates \ googleBlocked
  let googleOnly := googleBlocked \ blockedDates
  { totalRentalBlocked := blockedDates.card
    totalGoogleBlocked := googleBlocked.card
    rentalOnly := rentalOnly
    googleOnly := googleOnly
    syncNeeded := decide (0 < rentalOnly.card) || decide (0 < googleOnly.card) }

/-! ## Blocked-date range collapsing (app/services/rental_scraper_v2.py) -/

/-- Insertion step for sorting dates in the order Python `sorted` uses
on the parsed datetimes (chronological, hence by day number). -/
def insertDate (d : Date) : List Date → List Date
  | [] => [d]
  | x :: xs => if d.toDays ≤ x.toDays then d :: x :: xs else x :: insertDate d xs

/-- Chronological sort of the parsed blocked dates (`sorted_dates`). -/
def sortDates (l : List Date) : List Date :=
  l.foldr insertDate []

/-- The grouping loop of `get_blocked_date_ranges` (lines 292-319):
`start_date`/`end_date` hold the open run; a date exactly one day after
the run end extends the run, anything else closes the run and starts a
new one; the last run is flushed at the end. -/
def collapse_go (s e : Date) : List Date → List (Date × Date)
  | [] => [(s, e)]
  | c :: cs =>
    if c.toDays - e.toDays = 1 then collapse_go s c cs
    else (s, e) :: collapse_go c c cs

/-- Range grouping over an already sorted date list: empty input gives
no ranges, otherwise the loop starts with a one-day run at the first
date. -/
def collapseBlocked : List Date → List (Date × Date)
  | [] => []
  | d :: ds => collapse_go d d ds

/-- `GalvestonRentalScraper.get_blocked_date_ranges` (v2, lines
273-321) restricted to its pure core: sort the scraped blocked dates
and collapse consecutive runs into ranges with inclusive start and end.
(The `title`/`summary` strings attached to every range are constants
and are dropped here.) -/
def get_blocked_date_ranges (blockedDates : List Date) : List (Date × Date) :=
  collapseBlocked (sortDates blockedDates)

/-- Modelled from the specification text, for comparison with the
source implementation: collapse a date list into maximal runs of
consecutive days, each run one `(start, end)` pair with inclusive
endpoints; a following run is merged with a preceding date exactly when
it starts one day later, so any gap of more than one day breaks the
run. -/
def maximalRunsSpec : List Date → List (Date × Date)
  | [] => []
  | d :: ds =>
    match maximalRunsSpec ds with
    | [] => [(d, d)]
    | (s, e) :: r =>
      if s.toDays - d.toDays = 1 then (d, e) :: r else (d, d) :: (s, e) :: r

/-- One folding step relating the imperative loop to the spec-side
decomposition: how a pending run `(s, e)` absorbs an already-collapsed
tail. -/
def combineRuns (s e : Date) : List (Date × Date) → List (Date × Date)
  | [] => [(s, e)]
  | (s1, e1) :: r =>
    if s1.toDays - e.toDays = 1 then (s, e1) :: r else (s, e) :: (s1, e1) :: r

/-! ## Blocked-range sync (app/services/calendar_sync.py) -/

/-- A remote event as returned by the gateway listing inside the sync;
the sync only tests whether the listing is empty. -/
structure RemoteEvent where
  id : String
deriving DecidableEq, Repr

/-- The write vocabulary of the Google Calendar gateway
(`create_event`, `update_event`, `delete_event`). -/
inductive CalendarWrite
  | createEvent (summary : String) (startDay : Int) (stopDay : Int) (description : String)
  | updateEvent (eventId : String)
  | deleteEvent (eventId : String)
deriving DecidableEq, Repr

/-- The event `sync_blocked_dates_to_google` builds for a blocked range
(lines 54-60): title from the range, end exclusive (`end + 1 day`), and
the synthetic sync description making it recognizable later.  Days are
day numbers. -/
structure PlannedEvent where
  summary : String
  startDay : Int
  stopDay : Int
  description : String
deriving DecidableEq, Repr

/-- Build the planned blocking event for one blocked range
`(start, end)` (inclusive days). -/
def plannedEventOf (rg : Int × Int) : PlannedEvent :=
  { summary := "Blocked - Not Available"
    startDay := rg.1
    stopDay := rg.2 + 1
    description := "Automatically synced from rental booking website, blocked period " ++
      toString rg.1 ++ " to " ++ toString rg.2 }

/-- The `create_event` call the sync makes for a planned event. -/
def writeOf (rg : Int × Int) : CalendarWrite :=
  .createEvent (plannedEventOf rg).summary (plannedEventOf rg).startDay
    (plannedEventOf rg).stopDay (plannedEventOf rg).description

/-- Report returned by `sync_blocked_dates_to_google`, extended with
the list of gateway write calls actually performed, so that the
effect of the handler on the remote calendar is part of the value. -/
structure SyncReport where
  success : Bool
  eventsCreated : Nat
  eventsToCreate : List PlannedEvent
  blockedRangesFound : Nat
  dryRun : Bool
  writes : List CalendarWrite
deriving DecidableEq, Repr

/-- One iteration of the range loop (lines 45-77): list the remote
events in `[range.start, range.end + 1 day)`; when none exist, record
the planned event and, unless this is a dry run, perform the
`create_event` call (counting it as created when the gateway accepts
it); when any event exists, skip the range entirely. -/
def sync_step (listEvents : Int → Int → List RemoteEvent) (createOk : PlannedEvent → Bool)
    (dryRun : Bool) (acc : Nat × List PlannedEvent × List CalendarWrite) (rg : Int × Int) :
    Nat × List PlannedEvent × List CalendarWrite :=
  let existing := listEvents rg.1 (rg.2 + 1)
  if existing.isEmpty then
    let ev := plannedEventOf rg
    let writes := if dryRun then acc.2.2 else acc.2.2 ++ [writeOf rg]
    let created := if !dryRun && createOk ev then acc.1 + 1 else acc.1
    (created, acc.2.1 ++ [ev], writes)
  else acc

/-- `CalendarSyncService.sync_blocked_dates_to_google` (lines 18-95):
early return when no blocked ranges were scraped, otherwise fold the
range loop and report; `events_to_create` is echoed back only for a dry
run (line 83).  `listEvents` stands for `get_events` against the live
calendar and `createOk` for whether a `create_event` call succeeds. -/
def sync_blocked_dates_to_google (blockedRanges : List (Int × Int))
    (listEvents : Int → Int → List RemoteEvent) (createOk : PlannedEvent → Bool)
    (dryRun : Bool) : SyncReport :=
  if blockedRanges = [] then
    { success := true, eventsCreated := 0, eventsToCreate := [],
      blockedRangesFound := 0, dryRun := dryRun, writes := [] }
  else
    let r := blockedRanges.foldl (sync_step listEvents createOk dryRun) (0, [], [])
    { success := true, eventsCreated := r.1,
      eventsToCreate := if dryRun then r.2.1 else [],
      blockedRangesFound := blockedRanges.length, dryRun := dryRun,
      writes := r.2.2 }

/-- The ranges the sync does not skip: those whose window
`[start, end + 1 day)` lists no remote events. -/
def uncoveredRanges (blockedRanges : List (Int × Int))
    (listEvents : Int → Int → List RemoteEvent) : List (Int × Int) :=
  blockedRanges.filter (fun rg => (listEvents rg.1 (rg.2 + 1)).isEmpty)

/-! ## Claim theorems -/

/-- C1: the claim says issuing/verifying an approve/reject token fails
with a configuration error when the secret is absent or shorter than 32
characters, with no silent fallback.  The code does the opposite: with
the variable unset the hard-coded config default is used, with an empty
secret the serializer silently falls back to the Flask `SECRET_KEY`,
and a 5-character secret is accepted as-is; `_get_serializer` has no
error path at all.  This contradicts the security
tests (tests/test_token_security_simple.py,
tests/test_security_verification.py), which require a `ValueError` and
the removal of the fallback, so the claim is right and the code is
wrong. -/
theorem C1_secret_fallback :
    getSerializerSecret (approvalTokenSecretConfig none) "flask-secret-key"
      = "NfjpI79JUbvtVe6VgqQOwig6RrE0XYmUdzJ7K0DU9wo" ∧
    getSerializerSecret (approvalTokenSecretConfig (some "")) "flask-secret-key"
      = "flask-secret-key" ∧
    getSerializerSecret (approvalTokenSecretConfig (some "short")) "flask-secret-key"
      = "short" ∧
    "short".length < 32 := by
  refine ⟨by decide, by decide, by decide, by decide⟩

/-- C2: the claim says a transport/auth failure of the remote listing
makes the availability check report the range as not available.  In the
code `get_events` swallows the `HttpError` into an empty event list, so
for every requested range `check_availability` reports
`available = True` with zero conflicts — the exact outcome the claim
(and the fail-closed intent of the error branch of the handler) rules
out. -/
theorem C2_gateway_error_reports_available (req : DRange) (msg : String) :
    check_availability req (.httpError msg)
      = { available := true, conflicts := [], message := "Available" } := rfl

/-- C3: the claim says every approve/reject handler, including the POST
rejection-with-reason handler, leaves a non-pending booking unchanged
and reports it as already processed.  The approve handler, the GET
reject handler and the API reject handler do guard (first three
conjuncts: unchanged state, zero calendar-event creations, an
already-processed response), but `admin.process_rejection` has no
status guard: with a valid reject token it overwrites a `confirmed`
booking to `rejected`, so a reject applied after confirmation does
change persisted state (last conjunct). -/
theorem C3_reject_after_confirmation :
    (approve_booking (some ⟨7, "approve"⟩)
        ⟨"confirmed", some "evt-1", some 5, none, none⟩
        ⟨true, [], "Available"⟩ (some "evt-2") 9
      = (⟨"confirmed", some "evt-1", some 5, none, none⟩, 0, .alreadyProcessed "confirmed")) ∧
    (reject_booking_get (some ⟨7, "reject"⟩)
        ⟨"confirmed", some "evt-1", some 5, none, none⟩
      = (⟨"confirmed", some "evt-1", some 5, none, none⟩, .alreadyProcessed "confirmed")) ∧
    (api_reject_booking (some ⟨7, "reject"⟩)
        (some ⟨"confirmed", some "evt-1", some 5, none, none⟩)
      = (some ⟨"confirmed", some "evt-1", some 5, none, none⟩, .alreadyProcessed "confirmed")) ∧
    (process_rejection (some ⟨7, "reject"⟩)
        ⟨"confirmed", some "evt-1", some 5, none, none⟩ "no longer needed" 9
      = (⟨"rejected", some "evt-1", some 5, some 9, some "no longer needed"⟩, .rejectedOk)) := by
  refine ⟨by decide, by decide, by decide, by decide⟩

/-- C6: the interval-overlap test of `check_availability` is symmetric,
ranges that are merely adjacent (`a.end = b.start`) never overlap, and
a non-empty range always overlaps itself. -/
theorem C6_overlap_properties (a b : DRange) :
    (overlaps a b = overlaps b a) ∧
    (a.endT = b.startT → overlaps a b = false) ∧
    (a.startT < a.endT → overlaps a a = true) := by
  refine ⟨?_, ?_, ?_⟩
  · simp only [overlaps, decide_eq_decide]
    exact ⟨fun ⟨h1, h2⟩ => ⟨h2, h1⟩, fun ⟨h1, h2⟩ => ⟨h2, h1⟩⟩
  · intro h
    simp only [overlaps, decide_eq_false_iff_not, not_and]
    intro _ h2
    rw [h] at h2
    exact lt_irrefl _ h2
  · intro h
    simp only [overlaps, decide_eq_true_eq]
    exact ⟨h, h⟩

/-- Witness for C6 at concrete ranges: symmetry for the adjacent pair
`[0,2)`, `[2,5)`, their non-overlap, and self-overlap of the non-empty
range `[3,8)`. -/
theorem C6_overlap_witness :
    (overlaps ⟨0, 2⟩ ⟨2, 5⟩ = overlaps ⟨2, 5⟩ ⟨0, 2⟩) ∧
    overlaps ⟨0, 2⟩ ⟨2, 5⟩ = false ∧
    overlaps ⟨3, 8⟩ ⟨3, 8⟩ = true :=
  ⟨(C6_overlap_properties ⟨0, 2⟩ ⟨2, 5⟩).1,
   (C6_overlap_properties ⟨0, 2⟩ ⟨2, 5⟩).2.1 rfl,
   (C6_overlap_properties ⟨3, 8⟩ ⟨3, 8⟩).2.2 (by decide)⟩

/-- C4 counterexample: a booking with status `confirmed` and a linked
remote event id whose remote event is gone.  The claim requires a
`deleted` change for it, but `_get_bookings_with_calendar_events`
filters on an `approved` status, so the detector examines no
confirmed booking and emits nothing. -/
theorem C4_confirmed_booking_ignored :
    (⟨7, "confirmed", some "evt-1", ⟨2025, 9, 10⟩, ⟨2025, 9, 12⟩,
        "guest@example.com", "Guest"⟩ : CDBooking).status = "confirmed" ∧
    (⟨7, "confirmed", some "evt-1", ⟨2025, 9, 10⟩, ⟨2025, 9, 12⟩,
        "guest@example.com", "Guest"⟩ : CDBooking).googleEventId = some "evt-1" ∧
    detect_booking_changes
      [⟨7, "confirmed", some "evt-1", ⟨2025, 9, 10⟩, ⟨2025, 9, 12⟩,
        "guest@example.com", "Guest"⟩]
      (fun _ => none) = [] := by
  refine ⟨by decide, by decide, by decide⟩

/-- Detection over a one-booking database reduces to the single
check when the booking passes the approved-with-event-id filter. -/
theorem detect_booking_changes_singleton (b : CDBooking)
    (f : String → Option CDEvent) (eid : String)
    (hst : b.status = "approved") (heid : b.googleEventId = some eid) :
    detect_booking_changes [b] f = (check_booking_for_changes b f).toList := by
  simp only [detect_booking_changes, get_bookings_with_calendar_events,
    List.filter, heid, hst, Option.isSome_some, Bool.true_and, beq_self_eq_true,
    List.filterMap]
  cases check_booking_for_changes b f <;> rfl

/-- C4 (amended): for every booking whose status is `approved` and that
carries a linked remote event id, the detector emits a `deleted` change
with the last-known range of the booking exactly when the remote event is
absent; when the event is present with parseable date-only start and
end, it emits a `modified` change carrying the old and new ranges
exactly when either date differs from the stored one, and emits nothing
for an unchanged event; and such a booking is examined inside any
database containing it. -/
theorem C4_approved_change_detection (b : CDBooking)
    (eventsById : String → Option CDEvent) (eid : String)
    (hst : b.status = "approved") (heid : b.googleEventId = some eid) :
    (eventsById eid = none →
      detect_booking_changes [b] eventsById = [deletedChange b]) ∧
    (∀ ev s e, eventsById eid = some ev → ev.startDate = some s →
      ev.endDate = some e →
      ((s ≠ b.startDate ∨ e ≠ b.endDate) →
        detect_booking_changes [b] eventsById = [modifiedChange b ev]) ∧
      (s = b.startDate → e = b.endDate →
        detect_booking_changes [b] eventsById = [])) ∧
    (∀ db, b ∈ db → eventsById eid = none →
      deletedChange b ∈ detect_booking_changes db eventsById) := by
  refine ⟨?_, ?_, ?_⟩
  · intro habs
    rw [detect_booking_changes_singleton b eventsById eid hst heid]
    simp [check_booking_for_changes, heid, habs]
  · intro ev s e hev hs he
    constructor
    · intro hdiff
      rw [detect_booking_changes_singleton b eventsById eid hst heid]
      have hmod : event_was_modified b ev = true := by
        rw [event_was_modified, hs, he]
        rcases hdiff with h | h
        · exact decide_eq_true (Or.inl (Ne.symm h))
        · exact decide_eq_true (Or.inr (Ne.symm h))
      simp [check_booking_for_changes, heid, hev, hmod]
    · intro hseq heeq
      rw [detect_booking_changes_singleton b eventsById eid hst heid]
      have hmod : event_was_modified b ev = false := by
        rw [event_was_modified, hs, he]
        simp [hseq, heeq]
      simp [check_booking_for_changes, heid, hev, hmod]
  · intro db hmem habs
    have hcheck : check_booking_for_changes b eventsById = some (deletedChange b) := by
      simp [check_booking_for_changes, heid, habs]
    refine List.mem_filterMap.mpr ⟨b, ?_, ?_⟩
    · exact List.mem_filter.mpr ⟨hmem, by simp [heid, hst]⟩
    · simp [heid, hcheck]

/-- Witness for C4 at a concrete approved booking with a linked event
id that no longer exists remotely: the detector emits exactly the
deletion change. -/
theorem C4_detection_witness :
    detect_booking_changes
      [⟨3, "approved", some "evt-9", ⟨2025, 9, 10⟩, ⟨2025, 9, 12⟩,
        "guest@example.com", "Guest"⟩]
      (fun _ => none)
    = [deletedChange ⟨3, "approved", some "evt-9", ⟨2025, 9, 10⟩, ⟨2025, 9, 12⟩,
        "guest@example.com", "Guest"⟩] :=
  (C4_approved_change_detection
    ⟨3, "approved", some "evt-9", ⟨2025, 9, 10⟩, ⟨2025, 9, 12⟩,
      "guest@example.com", "Guest"⟩
    (fun _ => none) "evt-9" rfl rfl).1 rfl

/-- C5 counterexample: a well-formed one-night future booking.  One
night is below the configured minimum stay
(`MIN_STAY_NIGHTS` defaults to 2), so the claim requires a validation
rejection, but the handler runs no stay-length check at all and
persists the booking as pending when the calendar is free. -/
theorem C5_short_stay_accepted :
    booking_request "Alice" "alice@example.com" (.parsed 1440) (.parsed 2880) 0
      ⟨true, [], "Available"⟩ = .persistedPending ∧
    ((2880 - 1440 : Int) / minutesPerDay) < (MIN_STAY_NIGHTS_default : Int) := by
  refine ⟨by decide, by decide⟩

/-- The validation list is non-empty whenever the parsed dates are
mis-ordered or the start lies in the past. -/
theorem validate_booking_form_ne_nil (guestName guestEmail : String)
    (s e now : Int) (h : s ≥ e ∨ s < now) :
    validate_booking_form guestName guestEmail (.parsed s) (.parsed e) now ≠ [] := by
  by_cases h1 : guestName = "" <;> by_cases h2 : guestEmail = "" <;>
    by_cases h3 : s ≥ e <;> by_cases h4 : s < now <;>
      simp [validate_booking_form, h1, h2, h3, h4] <;> tauto

/-- C5 (amended): on submission a booking request is rejected before
anything is persisted, with a non-empty list of human-readable
validation errors, whenever the parsed check-in is not before the
check-out or lies in the past; the configured stay-length bounds
(`MIN_STAY_NIGHTS`/`MAX_STAY_NIGHTS`) are never checked by the
handler. -/
theorem C5_validation_rejects (guestName guestEmail : String)
    (s e now : Int) (avail : AvailabilityResult) (h : s ≥ e ∨ s < now) :
    ∃ errs, errs ≠ [] ∧
      booking_request guestName guestEmail (.parsed s) (.parsed e) now avail
        = .validationFailed errs := by
  refine ⟨validate_booking_form guestName guestEmail (.parsed s) (.parsed e) now,
    validate_booking_form_ne_nil guestName guestEmail s e now h, ?_⟩
  rw [booking_request]
  rw [if_pos (validate_booking_form_ne_nil guestName guestEmail s e now h)]

/-- Witness for C5 at a concrete mis-ordered submission (check-out
before check-in): the handler rejects with validation errors. -/
theorem C5_validation_witness :
    ∃ errs, errs ≠ [] ∧
      booking_request "Alice" "alice@example.com" (.parsed 2880) (.parsed 1440) 0
        ⟨true, [], "Available"⟩ = .validationFailed errs :=
  C5_validation_rejects "Alice" "alice@example.com" 2880 1440 0
    ⟨true, [], "Available"⟩ (Or.inl (by decide))

/-- C7: the reconciliation comparison reports `rentalOnly` as the
scraped-blocked set minus the remote-blocked set and `googleOnly` as
the remote set minus the scraped set, and `syncNeeded` is true exactly
when either difference is non-empty; on the scraped blocked dates
2025-08-29 .. 2025-09-02 against an empty remote event list it reports
all five dates as rental-only, an empty remote-only set and
`syncNeeded = true`. -/
theorem C7_compare_diff (blocked : Finset Date) (events : List RawGoogleEvent) :
    (compare_with_google_calendar blocked events).rentalOnly
        = blocked \ google_blocked_dates events ∧
    (compare_with_google_calendar blocked events).googleOnly
        = google_blocked_dates events \ blocked ∧
    (compare_with_google_calendar blocked events).syncNeeded
        = (decide ((compare_with_google_calendar blocked events).rentalOnly ≠ ∅) ||
           decide ((compare_with_google_calendar blocked events).googleOnly ≠ ∅)) ∧
    compare_with_google_calendar
        {⟨2025, 8, 29⟩, ⟨2025, 8, 30⟩, ⟨2025, 8, 31⟩, ⟨2025, 9, 1⟩, ⟨2025, 9, 2⟩} []
      = { totalRentalBlocked := 5, totalGoogleBlocked := 0,
          rentalOnly :=
            {⟨2025, 8, 29⟩, ⟨2025, 8, 30⟩, ⟨2025, 8, 31⟩, ⟨2025, 9, 1⟩, ⟨2025, 9, 2⟩},
          googleOnly := ∅, syncNeeded := true } := by
  have hcard : ∀ t : Finset Date, decide (0 < t.card) = decide (t ≠ ∅) := fun t =>
    decide_eq_decide.mpr (Finset.card_pos.trans Finset.nonempty_iff_ne_empty)
  refine ⟨rfl, rfl, ?_, by decide⟩
  simp only [compare_with_google_calendar, hcard]

/-- The imperative grouping loop with pending run `(s, e)` agrees with
the spec-side decomposition of the remaining dates, absorbed through
`combineRuns`. -/
theorem collapse_go_eq_combine (l : List Date) :
    ∀ s e, collapse_go s e l = combineRuns s e (maximalRunsSpec l) := by
  induction l with
  | nil => intro s e; rfl
  | cons c cs ih =>
    intro s e
    rcases hmr : maximalRunsSpec cs with _ | ⟨⟨s1, e1⟩, r⟩
    · by_cases h : c.toDays - e.toDays = 1 <;>
        simp_all [collapse_go, maximalRunsSpec, combineRuns, ih]
    · by_cases h : c.toDays - e.toDays = 1 <;>
        by_cases h2 : s1.toDays - c.toDays = 1 <;>
          simp_all [collapse_go, maximalRunsSpec, combineRuns, ih]

/-- The source grouping loop computes exactly the maximal consecutive
runs of its (sorted) input list. -/
theorem collapseBlocked_eq_maximalRuns (l : List Date) :
    collapseBlocked l = maximalRunsSpec l := by
  cases l with
  | nil => rfl
  | cons d ds =>
    rw [collapseBlocked, collapse_go_eq_combine ds d d]
    rcases hmr : maximalRunsSpec ds with _ | ⟨⟨s1, e1⟩, r⟩ <;>
      simp_all [maximalRunsSpec, combineRuns]

/-- C8: for every list of scraped blocked dates,
`get_blocked_date_ranges` sorts them chronologically and collapses them
into the maximal runs of consecutive days, each reported as one range
with inclusive start and end (so a gap of more than one day breaks the
run); in particular 2025-08-29/30/31 plus 2025-09-05 collapse to the
two ranges (08-29, 08-31) and (09-05, 09-05). -/
theorem C8_range_collapsing :
    (∀ blockedDates : List Date,
      get_blocked_date_ranges blockedDates = maximalRunsSpec (sortDates blockedDates)) ∧
    get_blocked_date_ranges
        [⟨2025, 8, 29⟩, ⟨2025, 8, 30⟩, ⟨2025, 8, 31⟩, ⟨2025, 9, 5⟩]
      = [(⟨2025, 8, 29⟩, ⟨2025, 8, 31⟩), (⟨2025, 9, 5⟩, ⟨2025, 9, 5⟩)] :=
  ⟨fun l => collapseBlocked_eq_maximalRuns (sortDates l), by decide⟩

/-- Planned-event accumulation of the sync loop: the fold appends
exactly one planned event per uncovered range, in order. -/
theorem sync_foldl_planned (listEvents : Int → Int → List RemoteEvent)
    (createOk : PlannedEvent → Bool) (dryRun : Bool) (l : List (Int × Int)) :
    ∀ acc : Nat × List PlannedEvent × List CalendarWrite,
      (l.foldl (sync_step listEvents createOk dryRun) acc).2.1
        = acc.2.1 ++ (uncoveredRanges l listEvents).map plannedEventOf := by
  induction l with
  | nil => intro acc; simp [uncoveredRanges]
  | cons rg rest ih =>
    intro acc
    rw [List.foldl_cons, ih]
    by_cases h : (listEvents rg.1 (rg.2 + 1)).isEmpty <;>
      simp [sync_step, uncoveredRanges, h]

/-- Write accumulation of the sync loop: no writes at all on a dry run,
and otherwise exactly one `create_event` call per uncovered range. -/
theorem sync_foldl_writes (listEvents : Int → Int → List RemoteEvent)
    (createOk : PlannedEvent → Bool) (dryRun : Bool) (l : List (Int × Int)) :
    ∀ acc : Nat × List PlannedEvent × List CalendarWrite,
      (l.foldl (sync_step listEvents createOk dryRun) acc).2.2
        = acc.2.2 ++
          (if dryRun then [] else (uncoveredRanges l listEvents).map writeOf) := by
  induction l with
  | nil => intro acc; simp [uncoveredRanges]
  | cons rg rest ih =>
    intro acc
    rw [List.foldl_cons, ih]
    by_cases h : (listEvents rg.1 (rg.2 + 1)).isEmpty <;>
      cases dryRun <;>
        simp [sync_step, uncoveredRanges, h]

/-- A planned blocking event determines its source range. -/
theorem plannedEventOf_inj {a b : Int × Int}
    (h : plannedEventOf a = plannedEventOf b) : a = b := by
  have h1 : a.1 = b.1 := congrArg PlannedEvent.startDay h
  have h2 : a.2 + 1 = b.2 + 1 := congrArg PlannedEvent.stopDay h
  exact Prod.ext h1 (by omega)

/-- A `create_event` call of the sync determines its source range. -/
theorem writeOf_inj {a b : Int × Int} (h : writeOf a = writeOf b) : a = b := by
  have h1 : plannedEventOf a = plannedEventOf b := by
    rcases hpa : plannedEventOf a with ⟨sma, sta, spa, dsa⟩
    rcases hpb : plannedEventOf b with ⟨smb, stb, spb, dsb⟩
    rw [writeOf, writeOf, hpa, hpb] at h
    cases h
    rfl
  exact plannedEventOf_inj h1

/-- C9: the blocked-range sync performs no remote write except
`create_event` calls for blocking events — its writes are exactly one
creation per range whose window `[start, end + 1 day)` lists no
existing remote event, it never deletes or updates anything, a dry run
performs no write at all and only reports the planned events, and a
range whose window already contains a remote event is skipped (neither
planned nor written). -/
theorem C9_sync_one_directional (blockedRanges : List (Int × Int))
    (listEvents : Int → Int → List RemoteEvent) (createOk : PlannedEvent → Bool)
    (dryRun : Bool) :
    (sync_blocked_dates_to_google blockedRanges listEvents createOk dryRun).writes
      = (if dryRun then []
         else (uncoveredRanges blockedRanges listEvents).map writeOf) ∧
    (sync_blocked_dates_to_google blockedRanges listEvents createOk dryRun).eventsToCreate
      = (if dryRun then (uncoveredRanges blockedRanges listEvents).map plannedEventOf
         else []) ∧
    (∀ w ∈ (sync_blocked_dates_to_google blockedRanges listEvents createOk dryRun).writes,
      ∃ sm sd ed ds, w = CalendarWrite.createEvent sm sd ed ds) ∧
    (dryRun = true →
      (sync_blocked_dates_to_google blockedRanges listEvents createOk dryRun).writes
        = []) ∧
    (∀ rg ∈ blockedRanges, ¬ (listEvents rg.1 (rg.2 + 1)).isEmpty = true →
      plannedEventOf rg
          ∉ (sync_blocked_dates_to_google blockedRanges listEvents createOk dryRun).eventsToCreate ∧
      writeOf rg
          ∉ (sync_blocked_dates_to_google blockedRanges listEvents createOk dryRun).writes) := by
  have hw : (sync_blocked_dates_to_google blockedRanges listEvents createOk dryRun).writes
      = (if dryRun then []
         else (uncoveredRanges blockedRanges listEvents).map writeOf) := by
    by_cases h0 : blockedRanges = []
    · subst h0; simp [sync_blocked_dates_to_google, uncoveredRanges]
    · simp only [sync_blocked_dates_to_google, if_neg h0]
      simpa using sync_foldl_writes listEvents createOk dryRun blockedRanges (0, [], [])
  have he : (sync_blocked_dates_to_google blockedRanges listEvents createOk dryRun).eventsToCreate
      = (if dryRun then (uncoveredRanges blockedRanges listEvents).map plannedEventOf
         else []) := by
    by_cases h0 : blockedRanges = []
    · subst h0; simp [sync_blocked_dates_to_google, uncoveredRanges]
    · simp only [sync_blocked_dates_to_google, if_neg h0]
      cases dryRun <;>
        simpa using sync_foldl_planned listEvents createOk _ blockedRanges (0, [], [])
  refine ⟨hw, he, ?_, ?_, ?_⟩
  · intro w hwmem
    rw [hw] at hwmem
    cases dryRun with
    | true => simp at hwmem
    | false =>
      simp only [Bool.false_eq_true, if_neg, ite_false] at hwmem
      obtain ⟨rg, _, rfl⟩ := List.mem_map.mp hwmem
      exact ⟨(plannedEventOf rg).summary, (plannedEventOf rg).startDay,
        (plannedEventOf rg).stopDay, (plannedEventOf rg).description, rfl⟩
  · intro hd
    rw [hw, hd]
    rfl
  · intro rg hmem hcov
    constructor
    · intro hin
      rw [he] at hin
      cases dryRun with
      | false => simp at hin
      | true =>
        simp only [ite_true] at hin
        obtain ⟨rg2, hrg2, heq⟩ := List.mem_map.mp hin
        obtain rfl := plannedEventOf_inj heq
        exact hcov (List.mem_filter.mp hrg2).2
    · intro hin
      rw [hw] at hin
      cases dryRun with
      | true => simp at hin
      | false =>
        simp only [Bool.false_eq_true, if_neg, ite_false] at hin
        obtain ⟨rg2, hrg2, heq⟩ := List.mem_map.mp hin
        obtain rfl := writeOf_inj heq
        exact hcov (List.mem_filter.mp hrg2).2

/-- Witness for C9 at a concrete run: two blocked ranges, the second
already covered by a remote event.  The only live write is a creation,
the dry run writes nothing, and the covered range is skipped. -/
theorem C9_sync_witness :
    (∃ sm sd ed ds, writeOf (0, 2) = CalendarWrite.createEvent sm sd ed ds) ∧
    (sync_blocked_dates_to_google [(0, 2), (10, 11)]
        (fun s _ => if s = 10 then [⟨"busy"⟩] else []) (fun _ => true) true).writes
      = [] ∧
    (plannedEventOf (10, 11)
        ∉ (sync_blocked_dates_to_google [(0, 2), (10, 11)]
            (fun s _ => if s = 10 then [⟨"busy"⟩] else [])
            (fun _ => true) false).eventsToCreate ∧
     writeOf (10, 11)
        ∉ (sync_blocked_dates_to_google [(0, 2), (10, 11)]
            (fun s _ => if s = 10 then [⟨"busy"⟩] else [])
            (fun _ => true) false).writes) :=
  ⟨(C9_sync_one_directional [(0, 2), (10, 11)]
      (fun s _ => if s = 10 then [⟨"busy"⟩] else [])
      (fun _ => true) false).2.2.1 (writeOf (0, 2)) (by decide),
   (C9_sync_one_directional [(0, 2), (10, 11)]
      (fun s _ => if s = 10 then [⟨"busy"⟩] else [])
      (fun _ => true) true).2.2.2.1 rfl,
   (C9_sync_one_directional [(0, 2), (10, 11)]
      (fun s _ => if s = 10 then [⟨"busy"⟩] else [])
      (fun _ => true) false).2.2.2.2 (10, 11) (by decide) (by decide)⟩

/-- C10: for every existing booking id the public status endpoint
returns the full `to_dict` serialization, which carries the
guest name, email address and phone number.  The only handler inputs are
the database and the integer id — no session, credential or token
enters the computation — so the record is disclosed to any caller who
supplies a valid id. -/
theorem C10_status_exposes_contact (db : Nat → Option BookingRecord)
    (bookingId : Nat) (b : BookingRecord) (h : db bookingId = some b) :
    booking_status db bookingId = some (to_dict b) ∧
    (to_dict b).guest_name = b.guestName ∧
    (to_dict b).guest_email = b.guestEmail ∧
    (to_dict b).guest_phone = b.guestPhone := by
  refine ⟨?_, rfl, rfl, rfl⟩
  simp [booking_status, h]

/-- Witness for C10 at a concrete one-row database: the status lookup
for id 4 returns the serialized record with the guest contact
fields. -/
theorem C10_status_witness :
    booking_status
        (fun i => if i = 4 then
          some ⟨4, "Alice Smith", "alice@example.com", some "555-0100", 0, 2880, 2,
            none, "pending", 0, 0⟩ else none) 4
      = some (to_dict ⟨4, "Alice Smith", "alice@example.com", some "555-0100", 0, 2880,
          2, none, "pending", 0, 0⟩) ∧
    (to_dict ⟨4, "Alice Smith", "alice@example.com", some "555-0100", 0, 2880, 2,
        none, "pending", 0, 0⟩).guest_name = "Alice Smith" ∧
    (to_dict ⟨4, "Alice Smith", "alice@example.com", some "555-0100", 0, 2880, 2,
        none, "pending", 0, 0⟩).guest_email = "alice@example.com" ∧
    (to_dict ⟨4, "Alice Smith", "alice@example.com", some "555-0100", 0, 2880, 2,
        none, "pending", 0, 0⟩).guest_phone = some "555-0100" :=
  C10_status_exposes_contact
    (fun i => if i = 4 then
      some ⟨4, "Alice Smith", "alice@example.com", some "555-0100", 0, 2880, 2,
        none, "pending", 0, 0⟩ else none) 4
    ⟨4, "Alice Smith", "alice@example.com", some "555-0100", 0, 2880, 2,
      none, "pending", 0, 0⟩ (by decide)
